import Mathlib

/-!
A shallow embedding of the agentic retrieval-and-answer orchestration core of
the RAG-ingestion repository (src/agentic: state.py, strategy_selector.py,
nodes.py, orchestrator.py, main.py), together with theorems checking the
specification's claims about it.

External collaborators (the Azure search backend, the embedding service, the
optional LLM intent classifier, and float square root) are modelled as oracle
parameters; everything else is translated directly from the Python source.
Python floats are modelled as rationals.
-/

/-! ## String helpers (Python regex/str primitives used by the core) -/

/-- Python regex word character, as used by the word-boundary patterns of
strategy_selector.py (ASCII approximation of re's default behavior). -/
def isWordChar (c : Char) : Bool := c.isAlphanum || c = '_'

/-- List-of-chars version of Python str.startswith. -/
def startsWithChars : List Char → List Char → Bool
  | [], _ => true
  | _ :: _, [] => false
  | n :: ns, h :: hs => n = h && startsWithChars ns hs

/-- List-of-chars version of the Python substring test (needle in haystack). -/
def containsChars (needle : List Char) : List Char → Bool
  | [] => startsWithChars needle []
  | h :: hs => startsWithChars needle (h :: hs) || containsChars needle hs

/-- Python substring containment (t in s). -/
def strContains (hay needle : String) : Bool := containsChars needle.data hay.data

/-- Maximal runs of word characters, used to model a word-boundary regex
search for a plain word: re.search(r"\bw\b", s) holds iff w is one of the
word-character runs of s. -/
def wordsAux : List Char → List Char → List String
  | [], acc => if acc.isEmpty then [] else [String.mk acc.reverse]
  | c :: rest, acc =>
    if isWordChar c then wordsAux rest (c :: acc)
    else if acc.isEmpty then wordsAux rest []
    else String.mk acc.reverse :: wordsAux rest []

/-- Word-character runs of a string. -/
def pyWords (s : String) : List String := wordsAux s.data []

/-- re.search(r"\b(overview|summary|brief|quick)\b", a) of strategy_selector.py. -/
def hasOverviewWord (a : String) : Bool :=
  (pyWords a).any (fun w => w = "overview" || w = "summary" || w = "brief" || w = "quick")

/-- Helper for the filename-hint regex: does the char list start with ".pdf"
followed by a word boundary (end of string or a non-word character)? -/
def dotPdfBoundary : List Char → Bool
  | '.' :: 'p' :: 'd' :: 'f' :: rest =>
    match rest with
    | [] => true
    | r :: _ => !isWordChar r
  | _ => false

/-- Scan for re.search(r"\b\w+\.pdf\b", q): some word character immediately
followed by ".pdf" and a closing word boundary. -/
def hasPdfHintAux : List Char → Bool
  | [] => false
  | c :: rest => (isWordChar c && dotPdfBoundary rest) || hasPdfHintAux rest

/-- re.search(r"\b\w+\.pdf\b", query) of strategy_selector.py. -/
def hasPdfHint (q : String) : Bool := hasPdfHintAux q.data

/-- Runs of characters for which the separator predicate is false; empty
pieces are dropped. -/
def runsAux (p : Char → Bool) : List Char → List Char → List String
  | [], acc => if acc.isEmpty then [] else [String.mk acc.reverse]
  | c :: rest, acc =>
    if p c then
      if acc.isEmpty then runsAux p rest []
      else String.mk acc.reverse :: runsAux p rest []
    else runsAux p rest (c :: acc)

/-- Python str.split() with no argument: split on whitespace runs, dropping
empty pieces. -/
def pySplitWs (s : String) : List String := runsAux Char.isWhitespace s.data []

/-- Python str.lower() (ASCII case folding, character by character). -/
def pyToLower (s : String) : String := String.mk (s.data.map Char.toLower)

/-- Python str.strip() with no argument: drop leading and trailing
whitespace. -/
def pyTrim (s : String) : String :=
  String.mk (((s.data.dropWhile Char.isWhitespace).reverse.dropWhile
    Char.isWhitespace).reverse)

/-- Python s.replace("?", " "): the needle is a single character, so the
replacement is a character map. -/
def replaceQuestionMarks (s : String) : String :=
  String.mk (s.data.map (fun c => if c = '?' then ' ' else c))

/-- Python s[:n] character slicing. -/
def pyTake (n : Nat) (s : String) : String := String.mk (s.data.take n)

/-! ## Data model (state.py) -/

/-- SearchStrategy (state.py lines 5-18): a string enum with thirteen members.
Note: the enum is not limited to the five members used by the retry loop. -/
inductive SearchStrategy where
  | HYBRID_SEARCH
  | QA_PAIRS
  | ENTITY_SEARCH
  | SUMMARY_SEARCH
  | DOCUMENT_SEARCH
  | HYBRID_SEMANTIC
  | FACETED_SEARCH
  | EXPANDED_QUERY
  | BRANCH_FILTER
  | CATEGORY_FILTER
  | LIBRARY_FILTER
  | DATE_RANGE_FILTER
  | PAGE_RANGE_FILTER
deriving DecidableEq, Repr

/-- The .value string of each SearchStrategy member. -/
def SearchStrategy.value : SearchStrategy → String
  | .HYBRID_SEARCH => "hybrid_search"
  | .QA_PAIRS => "qa_pairs"
  | .ENTITY_SEARCH => "entity_search"
  | .SUMMARY_SEARCH => "summary_search"
  | .DOCUMENT_SEARCH => "document_search"
  | .HYBRID_SEMANTIC => "hybrid_semantic"
  | .FACETED_SEARCH => "faceted_search"
  | .EXPANDED_QUERY => "expanded_query"
  | .BRANCH_FILTER => "branch_filter"
  | .CATEGORY_FILTER => "category_filter"
  | .LIBRARY_FILTER => "library_filter"
  | .DATE_RANGE_FILTER => "date_range_filter"
  | .PAGE_RANGE_FILTER => "page_range_filter"

/-- Enum lookup by value, SearchStrategy(s): used by _parse_strategy (main.py). -/
def strategyOfValue (s : String) : Option SearchStrategy :=
  if s = "hybrid_search" then some .HYBRID_SEARCH
  else if s = "qa_pairs" then some .QA_PAIRS
  else if s = "entity_search" then some .ENTITY_SEARCH
  else if s = "summary_search" then some .SUMMARY_SEARCH
  else if s = "document_search" then some .DOCUMENT_SEARCH
  else if s = "hybrid_semantic" then some .HYBRID_SEMANTIC
  else if s = "faceted_search" then some .FACETED_SEARCH
  else if s = "expanded_query" then some .EXPANDED_QUERY
  else if s = "branch_filter" then some .BRANCH_FILTER
  else if s = "category_filter" then some .CATEGORY_FILTER
  else if s = "library_filter" then some .LIBRARY_FILTER
  else if s = "date_range_filter" then some .DATE_RANGE_FILTER
  else if s = "page_range_filter" then some .PAGE_RANGE_FILTER
  else none

/-- QueryIntent (state.py lines 21-28). -/
structure QueryIntent where
  query_type : String
  complexity : String
  mentions_document : Bool
  has_entities : Bool
  requires_multi_hop : Bool
  aspects : List String
  language : String
deriving DecidableEq, Repr

/-- The user_context dict: branch, category, library, filename, language. -/
structure UserContext where
  branch : Option String
  category : Option String
  library : Option String
  filename : Option String
  language : Option String
deriving DecidableEq, Repr

/-- A DocumentChunk returned by the search backend.  Missing/None string
fields that the code reads through (x or "") are modelled as "". -/
structure Chunk where
  file_name : Option String
  sys_file_name : Option String
  chunk_content : String
  chunk_page_number : Option Int
  qa_questions : List String
  qa_answers : List String
  qa_confidence : ℚ
  chunk_function_summary : String
  chunk_entities : List String
  score : ℚ
deriving DecidableEq, Repr

/-- The empty dict {} used as default top chunk (top[0] if top else {}). -/
def defaultChunk : Chunk :=
  { file_name := none, sys_file_name := none, chunk_content := "",
    chunk_page_number := none, qa_questions := [], qa_answers := [],
    qa_confidence := 0, chunk_function_summary := "", chunk_entities := [],
    score := 0 }

/-- Python (a or b) for optional strings: empty/None falls to the right. -/
def orStr : Option String → Option String → Option String
  | some s, b => if s = "" then b else some s
  | none, b => b

/-- Candidate snapshot appended by evaluate_answer_node (nodes.py 311-320). -/
structure Candidate where
  strategy_used : String
  confidence : ℚ
  result_count : Nat
  answer : String
  top_file : Option String
  top_page : Option Int
  top_snippet : String
  answer_length : Nat
deriving DecidableEq, Repr

/-- The answer_evaluation record (nodes.py 250 and 299-306); the constant
method/formula strings are omitted. -/
structure AnswerEval where
  length : Nat
  citations_used : Nat
  sim_qa : ℚ
  sim_ac_max : ℚ
deriving DecidableEq, Repr

/-- The retrieval_evaluation record (nodes.py 161-164). -/
structure RetrievalEval where
  result_count : Nat
  strategy : String
deriving DecidableEq, Repr

/-- FinalResponse (return_partial_node / return_response_node /
return_best_node).  message is set only on the partial path. -/
structure FinalResponse where
  status : String
  message : Option String
  answer : Option String
  top_file : Option String
  top_page : Option Int
  top_snippet : String
  result_count : Nat
  strategy_used : String
  attempts : Nat
deriving DecidableEq, Repr

/-- AgentState (state.py lines 31-71).  raw_search_results and
search_metadata are flattened to the fields the core writes/reads;
the candidates list (read and written through state.get) is included. -/
structure AgentState where
  query : String
  session_id : String
  user_context : UserContext
  query_intent : Option QueryIntent
  current_strategy : Option SearchStrategy
  strategies_tried : List String
  strategy_reasons : List (String × String)
  attempt_count : Nat
  retrieved_documents : List Chunk
  raw_search_results_count : Nat
  search_metadata_topk : Nat
  search_metadata_last : Option String
  retrieval_evaluation : Option RetrievalEval
  is_satisfied : Bool
  failure_reason : String
  user_notifications : List String
  generated_answer : Option String
  answer_evaluation : Option AnswerEval
  answer_confidence : ℚ
  candidates : List Candidate
  final_response : Option FinalResponse
  processing_time_ms : Int
  confidence_threshold : ℚ
deriving DecidableEq, Repr

/-! ## Strategy selector (strategy_selector.py) -/

namespace StrategySelector

/-- StrategySelector.DEFAULT. -/
def DEFAULT : SearchStrategy := .HYBRID_SEARCH

/-- StrategySelector.select (strategy_selector.py lines 16-70).
Decision order: override wins; no intent defaults to hybrid; document
mention; question branch; statement branch; default hybrid. -/
def select (query : String) (intent : Option QueryIntent)
    (user_context : UserContext) (override : Option SearchStrategy) :
    SearchStrategy × String :=
  match override with
  | some o => (o, "Using override strategy from initial state")
  | none =>
    match intent with
    | none => (DEFAULT, "No analyzed intent available; defaulting to hybrid search")
    | some it =>
      if it.mentions_document then
        if (match user_context.filename with
            | some f => f ≠ ""
            | none => false) || hasPdfHint query then
          (.DOCUMENT_SEARCH, "Document mention/filename hint detected; using document search")
        else
          (.DOCUMENT_SEARCH, "Document mention detected; using document search")
      else if pyToLower it.query_type = "question" then
        if it.has_entities then
          (.ENTITY_SEARCH, "Question with entities; using entity search")
        else if it.aspects.any hasOverviewWord then
          (.SUMMARY_SEARCH, "Overview aspect; using summary search")
        else if it.requires_multi_hop || pyToLower it.complexity = "high" then
          (.HYBRID_SEARCH, "Complex/multi-hop question; using hybrid search")
        else
          (.QA_PAIRS, "Direct question; preferring curated QA pairs")
      else if it.has_entities then
        (.ENTITY_SEARCH, "Entity-like statement; using entity search")
      else if it.aspects.any hasOverviewWord then
        (.SUMMARY_SEARCH, "Overview aspect; using summary search")
      else if it.requires_multi_hop || pyToLower it.complexity = "high" then
        (.HYBRID_SEARCH, "Complex statement; using hybrid search")
      else
        (DEFAULT, "Defaulting to hybrid based on analyzed intent")

end StrategySelector

/-! ## Orchestration nodes (nodes.py) -/

/-- ALL_TRY_STRATEGIES (nodes.py lines 107-113): the fixed five-member retry
order. -/
def ALL_TRY_STRATEGIES : List SearchStrategy :=
  [.QA_PAIRS, .HYBRID_SEARCH, .SUMMARY_SEARCH, .DOCUMENT_SEARCH, .ENTITY_SEARCH]

/-- _fallback_strategy (nodes.py lines 115-121): cyclically advance in
ALL_TRY_STRATEGIES, defaulting to hybrid when current is not in the list. -/
def _fallback_strategy (current : SearchStrategy) : SearchStrategy :=
  match ALL_TRY_STRATEGIES.findIdx? (fun s => s = current) with
  | some i => ALL_TRY_STRATEGIES.getD ((i + 1) % ALL_TRY_STRATEGIES.length) .HYBRID_SEARCH
  | none => .HYBRID_SEARCH

/-- analyze_query_node (nodes.py lines 43-75).  The intent itself comes from
an external LLM call sanitized against the heuristic fallback; the node's
state effect is to store the resulting QueryIntent.  The intent value is
therefore an oracle parameter and the theorems quantify over it. -/
def analyze_query_node (intent : QueryIntent) (state : AgentState) : AgentState :=
  { state with query_intent := some intent }

/-- select_strategy_node (nodes.py lines 90-104): the override passed to the
selector is the current_strategy of the initial state; the chosen strategy's
value is appended to strategies_tried and its reason recorded. -/
def select_strategy_node (state : AgentState) : AgentState :=
  let override := state.current_strategy
  let sr := StrategySelector.select state.query state.query_intent state.user_context override
  { state with
    strategies_tried := state.strategies_tried ++ [sr.1.value],
    current_strategy := some sr.1,
    strategy_reasons := state.strategy_reasons ++ [(sr.1.value, sr.2)] }

/-- execute_search_node (nodes.py lines 124-154).  The per-strategy dispatch
(qa_search / entity_search with its naive entity regex / summary_search /
document_search with its filename hint / hybrid_search, and their top_k
values) all call the external SearchStrategyEngine; that engine is the oracle
parameter here, keyed by the chosen strategy and the query.  The node stores
the results, the result count, the last strategy, and increments
attempt_count by one. -/
def execute_search_node (engine : SearchStrategy → String → List Chunk)
    (state : AgentState) : AgentState :=
  let strategy := state.current_strategy.getD .HYBRID_SEARCH
  let results := engine strategy state.query
  { state with
    retrieved_documents := results,
    raw_search_results_count := results.length,
    search_metadata_last := some strategy.value,
    attempt_count := state.attempt_count + 1 }

/-- evaluate_results_node (nodes.py lines 157-165): satisfied iff at least
one document was retrieved. -/
def evaluate_results_node (state : AgentState) : AgentState :=
  let results := state.retrieved_documents
  { state with
    is_satisfied := results.length > 0,
    retrieval_evaluation := some
      { result_count := results.length,
        strategy := (state.current_strategy.getD .HYBRID_SEARCH).value } }

/-- notify_user_node (nodes.py lines 168-174). -/
def notify_user_node (state : AgentState) : AgentState :=
  let cur := (state.current_strategy.getD .HYBRID_SEARCH).value
  let msg := "Retrying with a new strategy. Tried=" ++
    toString state.strategies_tried.length ++ "; current=" ++ cur ++ "."
  { state with user_notifications := state.user_notifications ++ [msg] }

/-- replan_strategy_node (nodes.py lines 177-193): pick the first strategy of
ALL_TRY_STRATEGIES whose value is not yet in strategies_tried; if all are
used, fall back cyclically from the current strategy.  The choice is appended
to strategies_tried. -/
def replan_strategy_node (state : AgentState) : AgentState :=
  let cur := state.current_strategy.getD .HYBRID_SEARCH
  let tried := state.strategies_tried
  let nxt :=
    match ALL_TRY_STRATEGIES.find? (fun s => !tried.contains s.value) with
    | some s => s
    | none => _fallback_strategy cur
  { state with
    current_strategy := some nxt,
    strategies_tried := tried ++ [nxt.value],
    strategy_reasons := state.strategy_reasons ++
      [(nxt.value, "Fallback from " ++ cur.value)] }

/-- Result record built up by _best_answer's loop. -/
structure BestRec where
  score : Int
  answer : String
  question : String
  file : Option String
  page : Option Int
deriving DecidableEq, Repr

/-- The fixed boost-term set of _best_answer (nodes.py line 198). -/
def boostTerms : List String :=
  ["credit", "card", "account", "authorize", "authorization", "levy",
   "premium", "payment", "payments", "recurring", "renewal", "renewals"]

/-- Query tokens of _best_answer (nodes.py line 197): lowercase, '?' replaced
by space, whitespace-split, keep tokens longer than 3 characters. -/
def queryTokens (query : String) : List String :=
  (pySplitWs (replaceQuestionMarks (pyToLower (pyTrim query)))).filter (fun t => t.length > 3)

/-- Boosted token-overlap score of one QA answer (nodes.py lines 205-207). -/
def tokenHits (tokens : List String) (a_i : String) : Int :=
  (tokens.filter (fun t => strContains a_i t)).length +
    3 * (boostTerms.filter (fun t => strContains a_i t)).length

/-- _best_answer (nodes.py lines 196-216): scan every QA answer of every
retrieved chunk, keeping the first strictly-best score (initial score -1). -/
def _best_answer (results : List Chunk) (query : String) : BestRec :=
  let tokens := queryTokens query
  results.foldl
    (fun best doc =>
      (doc.qa_answers.enum).foldl
        (fun best ia =>
          let a_i := pyToLower (pyTrim ia.2)
          let hits := tokenHits tokens a_i
          if hits > best.score then
            { score := hits,
              answer := ia.2,
              question := doc.qa_questions.getD ia.1 "",
              file := orStr doc.file_name doc.sys_file_name,
              page := doc.chunk_page_number }
          else best)
        best)
    { score := -1, answer := "", question := "", file := none, page := none }

/-- generate_answer_node (nodes.py lines 219-231): empty retrieval gives an
empty answer; otherwise the best QA answer, falling back to the first chunk's
function summary or first 600 characters of stripped content. -/
def generate_answer_node (state : AgentState) : AgentState :=
  let results := state.retrieved_documents
  match results with
  | [] => { state with generated_answer := some "" }
  | top :: _ =>
    let best := _best_answer results state.query
    if best.answer ≠ "" then
      { state with generated_answer := some best.answer }
    else
      let fallback : String :=
        if top.chunk_function_summary ≠ "" then top.chunk_function_summary
        else pyTake 600 (pyTrim top.chunk_content)
      { state with generated_answer := some fallback }

/-! ## Answer evaluator (nodes.py evaluate_answer_node) -/

/-- Dot product of the _cos helper (nodes.py line 272), over zipped vectors. -/
def dotQ (u v : List ℚ) : ℚ := ((u.zip v).map (fun p => p.1 * p.2)).sum

/-- Sum of squares; math.sqrt of this is the norm in _cos. -/
def normSqQ (u : List ℚ) : ℚ := (u.map (fun x => x * x)).sum

/-- _cos (nodes.py lines 271-277): cosine similarity clamped to [-1, 1], with
zero-norm guard.  Python's math.sqrt has no rational counterpart, so the
square-root function is an oracle parameter (like the other float-library
collaborators); every theorem quantifies over it. -/
def cosSim (sqrtF : ℚ → ℚ) (u v : List ℚ) : ℚ :=
  let nu := sqrtF (normSqQ u)
  let nv := sqrtF (normSqQ v)
  if nu = 0 ∨ nv = 0 then 0
  else max (-1) (min 1 (dotQ u v / (nu * nv)))

/-- Outcome of the embedding-service interaction inside the try block of
evaluate_answer_node: either some call raised (failure) or the service
returned the query vector, the answer vector, and one vector per citation
text from the batch call. -/
inductive EmbedOutcome where
  | failure
  | success (e_q : List ℚ) (e_a : List ℚ) (e_ctx : List (List ℚ))
deriving Repr

/-- _citation_text (nodes.py lines 254-255): function summary or chunk
content, truncated to 600 characters. -/
def citationText (d : Chunk) : String :=
  pyTake 600
    (if d.chunk_function_summary ≠ "" then d.chunk_function_summary
     else d.chunk_content)

/-- Python round(x, 4) (display-only rounding of the similarity signals;
half-way ties differ from float banker's rounding, which no claim touches). -/
def roundQ4 (x : ℚ) : ℚ := ((round (x * 10000) : ℤ) : ℚ) / 10000

/-- evaluate_answer_node (nodes.py lines 234-322).  An empty generated answer
exits early with confidence 0, before any embedding-service call and before
the candidate append.  Otherwise confidence = clamp(0.4*sim_qa +
0.6*sim_ac_max, 0, 1) with zeros on embedding failure, and a Candidate
snapshot is appended. -/
def evaluate_answer_node (sqrtF : ℚ → ℚ) (emb : EmbedOutcome)
    (state : AgentState) : AgentState :=
  let ans := state.generated_answer.getD ""
  let citations := state.retrieved_documents
  if ans = "" then
    { state with
      answer_confidence := 0,
      answer_evaluation := some
        { length := 0, citations_used := 0, sim_qa := 0, sim_ac_max := 0 } }
  else
    let texts := ((citations.take 3).map citationText).filter (fun t => t ≠ "")
    let sims : ℚ × ℚ :=
      match emb with
      | .failure => (0, 0)
      | .success e_q e_a e_ctx =>
        let sim_qa := cosSim sqrtF e_q e_a
        let sim_ac_max :=
          if texts.isEmpty then 0
          else e_ctx.foldl
            (fun acc e_c =>
              let sim := cosSim sqrtF e_a e_c
              if sim > acc then sim else acc) 0
        (sim_qa, sim_ac_max)
    let conf := max 0 (min 1 (4/10 * sims.1 + 6/10 * sims.2))
    let top0 := citations.headD defaultChunk
    let cand : Candidate :=
      { strategy_used := (state.current_strategy.getD .HYBRID_SEARCH).value,
        confidence := conf,
        result_count := citations.length,
        answer := ans,
        top_file := orStr top0.file_name top0.sys_file_name,
        top_page := top0.chunk_page_number,
        top_snippet := citationText top0,
        answer_length := ans.length }
    { state with
      answer_confidence := conf,
      answer_evaluation := some
        { length := ans.length, citations_used := texts.length,
          sim_qa := roundQ4 sims.1, sim_ac_max := roundQ4 sims.2 },
      candidates := state.candidates ++ [cand] }

/-! ## Terminal nodes and routing predicates (nodes.py) -/

/-- return_partial_node (nodes.py lines 325-340): a "partial" response built
from the most recent (possibly empty) retrieval. -/
def return_partial_node (state : AgentState) : AgentState :=
  let top := state.retrieved_documents
  let top0 := top.headD defaultChunk
  let resp : FinalResponse :=
    { status := "partial",
      message := some "Max attempts reached; returning best available results.",
      answer := some (state.generated_answer.getD ""),
      top_file := orStr top0.file_name top0.sys_file_name,
      top_page := top0.chunk_page_number,
      top_snippet := citationText top0,
      result_count := top.length,
      strategy_used := (state.current_strategy.getD .HYBRID_SEARCH).value,
      attempts := state.attempt_count }
  { state with final_response := some resp }

/-- return_response_node (nodes.py lines 343-357): the "ok" response carrying
the generated answer. -/
def return_response_node (state : AgentState) : AgentState :=
  let top := state.retrieved_documents
  let top0 := top.headD defaultChunk
  let resp : FinalResponse :=
    { status := "ok",
      message := none,
      answer := state.generated_answer,
      top_file := orStr top0.file_name top0.sys_file_name,
      top_page := top0.chunk_page_number,
      top_snippet := citationText top0,
      result_count := top.length,
      strategy_used := (state.current_strategy.getD .HYBRID_SEARCH).value,
      attempts := state.attempt_count }
  { state with final_response := some resp }

/-- should_continue_or_replan (nodes.py lines 360-370): satisfied, else
exhaustion by distinct strategies tried or by attempt count, else retry. -/
def should_continue_or_replan (state : AgentState) : String :=
  if state.is_satisfied then "satisfied"
  else if ALL_TRY_STRATEGIES.length ≤ state.strategies_tried.dedup.length then "all_done"
  else if ALL_TRY_STRATEGIES.length ≤ state.attempt_count then "all_done"
  else "retry"

/-- float(state.get("confidence_threshold", 0.8) or 0.8): a threshold of 0.0
is falsy in Python and falls back to 0.8. -/
def effectiveThreshold (state : AgentState) : ℚ :=
  if state.confidence_threshold = 0 then 8/10 else state.confidence_threshold

/-- should_accept_answer (nodes.py lines 373-392): accept when confidence
reaches the threshold, else the same exhaustion checks as
should_continue_or_replan.  (float(x or 0.0) is the identity on the stored
rational confidence.) -/
def should_accept_answer (state : AgentState) : String :=
  let conf := state.answer_confidence
  if effectiveThreshold state ≤ conf then "accept"
  else if ALL_TRY_STRATEGIES.length ≤ state.strategies_tried.dedup.length then "all_done"
  else if ALL_TRY_STRATEGIES.length ≤ state.attempt_count then "all_done"
  else "retry"

/-! ## Best-candidate selection (nodes.py return_best_node) -/

/-- The three-level sort key (confidence, result_count, answer_length) of
return_best_node line 402, in the lexicographic order of Python tuples. -/
def candKeyL (c : Candidate) : ℚ ×ₗ (ℕ ×ₗ ℕ) :=
  toLex (c.confidence, toLex (c.result_count, c.answer_length))

/-- The ordering used by cands.sort(key=..., reverse=True): a is placed
before b when a's key is at least b's key; Python's stable descending sort
coincides with stable insertion sort under this relation. -/
def candRel (a b : Candidate) : Prop := candKeyL b ≤ candKeyL a

instance : DecidableRel candRel :=
  fun a b => inferInstanceAs (Decidable (candKeyL b ≤ candKeyL a))

instance : IsTotal Candidate candRel :=
  ⟨fun a b => (le_total (candKeyL b) (candKeyL a)).imp id id⟩

instance : IsTrans Candidate candRel :=
  ⟨fun _ _ _ hab hbc => le_trans hbc hab⟩

/-- cands.sort(key=lambda c: (confidence, result_count, answer_length),
reverse=True): stable descending sort. -/
def pySortCandidates (l : List Candidate) : List Candidate :=
  List.insertionSort candRel l

/-- Fallback record for indexing the sorted list (never used: the sorted
list of a non-empty candidates list is non-empty). -/
def defaultCandidate : Candidate :=
  { strategy_used := "", confidence := 0, result_count := 0, answer := "",
    top_file := none, top_page := none, top_snippet := "", answer_length := 0 }

/-- The final response assembled from the best candidate
(nodes.py lines 404-413). -/
def mkBestResponse (best : Candidate) (state : AgentState) : FinalResponse :=
  { status := "ok",
    message := none,
    answer := some best.answer,
    top_file := best.top_file,
    top_page := best.top_page,
    top_snippet := best.top_snippet,
    result_count := best.result_count,
    strategy_used := best.strategy_used,
    attempts := state.strategies_tried.length }

/-- return_best_node (nodes.py lines 395-415): empty candidates degrade to
return_partial_node; otherwise the top of the descending sort becomes the
final response (status "ok") and its confidence is stored. -/
def return_best_node (state : AgentState) : AgentState :=
  if state.candidates.isEmpty then return_partial_node state
  else
    let sorted := pySortCandidates state.candidates
    let best := sorted.headD defaultCandidate
    { state with
      final_response := some (mkBestResponse best state),
      answer_confidence := best.confidence }

/-! ## Orchestrator state machine (orchestrator.py) -/

/-- The nodes of the LangGraph workflow (orchestrator.py lines 28-39),
plus the END sentinel. -/
inductive Node where
  | analyze
  | select
  | search
  | evalResults
  | notify
  | replan
  | generate
  | evalAnswer
  | returnPartial
  | returnResponse
  | returnBest
  | done
deriving DecidableEq, Repr

/-- The external collaborators of one session: the sanitized intent the
analyze step stores, the strategy-engine results for each attempt, the
embedding-service outcome for each answer-evaluation cycle, and float
square root. -/
structure World where
  intent : QueryIntent
  engine : Nat → SearchStrategy → String → List Chunk
  embed : Nat → EmbedOutcome
  sqrtF : ℚ → ℚ

/-- A machine configuration: current node, session state, and the number of
answer-evaluation cycles performed so far (the embedding-oracle index). -/
structure Config where
  node : Node
  state : AgentState
  evalIdx : Nat
deriving Repr

/-- One step of the compiled workflow: run the current node's handler, then
follow the graph's edge (conditional edges consult the routing predicate on
the handler's output, orchestrator.py lines 45-81).  The "max_attempts"
entries of the conditional-edge maps are dead: neither predicate returns
that string.  END is absorbing. -/
def step (w : World) (c : Config) : Config :=
  match c.node with
  | .analyze => { c with node := .select, state := analyze_query_node w.intent c.state }
  | .select => { c with node := .search, state := select_strategy_node c.state }
  | .search =>
    { c with node := .evalResults,
             state := execute_search_node (w.engine c.state.attempt_count) c.state }
  | .evalResults =>
    let s := evaluate_results_node c.state
    let nxt :=
      if should_continue_or_replan s = "satisfied" then Node.generate
      else if should_continue_or_replan s = "all_done" then Node.returnBest
      else Node.notify
    { c with node := nxt, state := s }
  | .notify => { c with node := .replan, state := notify_user_node c.state }
  | .replan => { c with node := .search, state := replan_strategy_node c.state }
  | .generate => { c with node := .evalAnswer, state := generate_answer_node c.state }
  | .evalAnswer =>
    let s := evaluate_answer_node w.sqrtF (w.embed c.evalIdx) c.state
    let nxt :=
      if should_accept_answer s = "accept" then Node.returnResponse
      else if should_accept_answer s = "all_done" then Node.returnBest
      else Node.notify
    { node := nxt, state := s, evalIdx := c.evalIdx + 1 }
  | .returnPartial => { c with node := .done, state := return_partial_node c.state }
  | .returnResponse => { c with node := .done, state := return_response_node c.state }
  | .returnBest => { c with node := .done, state := return_best_node c.state }
  | .done => c

/-- Iterate the step function n times. -/
def iterStep (w : World) : Nat → Config → Config
  | 0, c => c
  | n + 1, c => iterStep w n (step w c)

/-! ## Entry point (main.py) -/

/-- _parse_strategy (main.py lines 16-22): falsy input gives None; an enum
value lookup that fails is swallowed and gives None. -/
def _parse_strategy (s : Option String) : Option SearchStrategy :=
  match s with
  | none => none
  | some str => if str = "" then none else strategyOfValue (pyToLower str)

/-- The initial AgentState built by run_single (main.py lines 29-54). -/
def initState (query : String) (override : Option SearchStrategy)
    (confidence_threshold : ℚ) (top_k : Nat) : AgentState :=
  { query := query,
    session_id := "cli",
    user_context := { branch := none, category := none, library := none,
                      filename := none, language := some "en" },
    query_intent := none,
    current_strategy := override,
    strategies_tried := [],
    strategy_reasons := [],
    attempt_count := 0,
    retrieved_documents := [],
    raw_search_results_count := 0,
    search_metadata_topk := top_k,
    search_metadata_last := none,
    retrieval_evaluation := none,
    is_satisfied := false,
    failure_reason := "",
    user_notifications := [],
    generated_answer := none,
    answer_evaluation := none,
    answer_confidence := 0,
    candidates := [],
    final_response := none,
    processing_time_ms := 0,
    confidence_threshold := confidence_threshold }

/-- The initial configuration: entry point analyze_query. -/
def initConfig (query : String) (override : Option SearchStrategy)
    (confidence_threshold : ℚ) (top_k : Nat) : Config :=
  { node := .analyze, state := initState query override confidence_threshold top_k,
    evalIdx := 0 }

/-- run_single (main.py lines 25-70), up to the final session state: parse
the override, build the initial state, run the workflow.  44 steps suffice
for every session (theorem runTerminates); the caller-side recursion limit
of 60 is a host circuit breaker outside this core. -/
def run_single_model (w : World) (query : String) (strategy : Option String)
    (confidence_threshold : ℚ) (top_k : Nat) : AgentState :=
  (iterStep w 44 (initConfig query (_parse_strategy strategy)
    confidence_threshold top_k)).state

/-- What main (main.py lines 155-173) decides to do after parsing. -/
inductive MainAction where
  | runCsv
  | runSingle
deriving DecidableEq, Repr

/-- The caller-misuse checks of main (main.py lines 164-171): csv input
without csv output, and missing query, raise SystemExit before any
orchestration; otherwise the corresponding action runs. -/
def main_route (csv_input csv_output query : Option String) :
    Except String MainAction :=
  match csv_input with
  | some _ =>
    match csv_output with
    | none => Except.error "--csv-output is required when using --csv-input"
    | some _ => Except.ok MainAction.runCsv
  | none =>
    match query with
    | none => Except.error "Provide --query for single run or --csv-input for batch"
    | some _ => Except.ok MainAction.runSingle

/-! ## Termination measure -/

/-- Rank of each node along the control flow; the only rank increase on an
edge is replan-to-search closing the retry loop, paid for by the
attempt_count increment in the measure. -/
def nodeRank : Node → Nat
  | .analyze => 9
  | .select => 8
  | .evalResults => 7
  | .generate => 6
  | .evalAnswer => 5
  | .returnPartial => 2
  | .returnResponse => 2
  | .returnBest => 2
  | .notify => 4
  | .replan => 3
  | .search => 1
  | .done => 0

/-- Decreasing measure for the retry loop: every step from a non-END
configuration satisfying the structural invariant strictly decreases it. -/
def measureC (c : Config) : Nat :=
  (5 - min c.state.attempt_count 5) * 7 + nodeRank c.node

/-! ## Invariants and fixtures used by the verification -/

/-- The .value strings of the five retry strategies. -/
def fiveValues : List String := ALL_TRY_STRATEGIES.map SearchStrategy.value

/-- Structural counter invariant, per machine node: the two exhaustion
counters agree except between a strategy append and the search that follows
it, and attempt_count never exceeds 5. -/
def nodeCounts : Node → AgentState → Prop
  | .analyze, s => s.strategies_tried.length = 0 ∧ s.attempt_count = 0
  | .select, s => s.strategies_tried.length = 0 ∧ s.attempt_count = 0
  | .search, s =>
    s.strategies_tried.length = s.attempt_count + 1 ∧ s.attempt_count ≤ 4
  | .notify, s =>
    s.strategies_tried.length = s.attempt_count ∧ s.attempt_count ≤ 4
  | .replan, s =>
    s.strategies_tried.length = s.attempt_count ∧ s.attempt_count ≤ 4
  | _, s => s.strategies_tried.length = s.attempt_count ∧ s.attempt_count ≤ 5

/-- The machine invariant: counters as above, and a terminal configuration
always carries a final response. -/
def MachInv (c : Config) : Prop :=
  nodeCounts c.node c.state ∧
    (c.node = .done → c.state.final_response.isSome = true)

/-- Invariant of override-free sessions: every strategy value that occurs in
the session is one of the five retry strategies. -/
def FiveOnly (c : Config) : Prop :=
  (∀ v ∈ c.state.strategies_tried, v ∈ fiveValues) ∧
  (∀ st, c.state.current_strategy = some st → st ∈ ALL_TRY_STRATEGIES)

/-- Invariant of sessions whose every retrieval is empty: no candidates, no
documents, the answer path is never entered, and termination is partial. -/
def EmptyRun (c : Config) : Prop :=
  c.state.candidates = [] ∧
  c.state.retrieved_documents = [] ∧
  c.node ≠ .generate ∧ c.node ≠ .evalAnswer ∧ c.node ≠ .returnResponse ∧
  (c.node = .done →
    ∃ r, c.state.final_response = some r ∧ r.status = "partial")

/-- A fixed sanitized intent used by the concrete sessions below. -/
def fixIntent : QueryIntent :=
  { query_type := "question", complexity := "low", mentions_document := false,
    has_entities := false, requires_multi_hop := false, aspects := [],
    language := "en" }

/-- A world whose search backend never returns documents and whose embedding
service always fails. -/
def wEmpty : World :=
  { intent := fixIntent, engine := fun _ _ _ => [], embed := fun _ => .failure,
    sqrtF := fun _ => 0 }

/-- A single retrievable chunk with one QA pair. -/
def oneChunk : Chunk :=
  { file_name := some "f.pdf", sys_file_name := none,
    chunk_content := "hello content", chunk_page_number := some 1,
    qa_questions := ["q1"], qa_answers := ["yes"], qa_confidence := 1,
    chunk_function_summary := "sum", chunk_entities := [], score := 1 }

/-- A world whose search backend always returns exactly one chunk but whose
embedding service always fails (so confidence is always 0). -/
def wOne : World := { wEmpty with engine := fun _ _ _ => [oneChunk] }

/-- Concrete candidates of the best-of example: (conf 0.3, n 2),
(conf 0.7, n 1), (conf 0.7, n 5). -/
def exCand1 : Candidate :=
  { defaultCandidate with
    confidence := 3/10, result_count := 2, answer := "a1", answer_length := 2 }

def exCand2 : Candidate :=
  { defaultCandidate with
    confidence := 7/10, result_count := 1, answer := "a2", answer_length := 2 }

def exCand3 : Candidate :=
  { defaultCandidate with
    confidence := 7/10, result_count := 5, answer := "a3", answer_length := 2 }

/-- A session state holding the three example candidates. -/
def exState : AgentState :=
  { initState "q" none (8/10) 5 with
    candidates := [exCand1, exCand2, exCand3],
    strategies_tried := ["qa_pairs", "hybrid_search"] }

/-- A state about to be answer-evaluated whose generated answer is empty
(reachable: a retrieved chunk with empty QA answers, summary and content). -/
def sEmptyAns : AgentState :=
  { initState "q" none (8/10) 5 with
    generated_answer := some "",
    retrieved_documents := [defaultChunk],
    attempt_count := 1, strategies_tried := ["qa_pairs"] }

/-- A state about to be answer-evaluated with a non-empty generated answer. -/
def sNonEmptyAns : AgentState :=
  { initState "q" none (8/10) 5 with
    generated_answer := some "yes",
    retrieved_documents := [oneChunk],
    attempt_count := 1, strategies_tried := ["qa_pairs"] }

/-! ## Helper lemmas -/

theorem evaluate_answer_preserves (f : ℚ → ℚ) (e : EmbedOutcome) (s : AgentState) :
    (evaluate_answer_node f e s).strategies_tried = s.strategies_tried ∧
    (evaluate_answer_node f e s).attempt_count = s.attempt_count ∧
    (evaluate_answer_node f e s).current_strategy = s.current_strategy ∧
    (evaluate_answer_node f e s).retrieved_documents = s.retrieved_documents ∧
    (evaluate_answer_node f e s).final_response = s.final_response := by
  by_cases h : s.generated_answer.getD "" = ""
  · simp [evaluate_answer_node, h]
  · cases e <;> simp [evaluate_answer_node, h]

theorem generate_answer_preserves (s : AgentState) :
    (generate_answer_node s).strategies_tried = s.strategies_tried ∧
    (generate_answer_node s).attempt_count = s.attempt_count ∧
    (generate_answer_node s).current_strategy = s.current_strategy ∧
    (generate_answer_node s).retrieved_documents = s.retrieved_documents ∧
    (generate_answer_node s).candidates = s.candidates ∧
    (generate_answer_node s).final_response = s.final_response := by
  rcases h : s.retrieved_documents with _ | ⟨top, tail⟩
  · simp [generate_answer_node, h]
  · simp only [generate_answer_node, h]
    split <;> simp

theorem return_best_preserves (s : AgentState) :
    (return_best_node s).strategies_tried = s.strategies_tried ∧
    (return_best_node s).attempt_count = s.attempt_count ∧
    (return_best_node s).current_strategy = s.current_strategy ∧
    (return_best_node s).candidates = s.candidates ∧
    (return_best_node s).retrieved_documents = s.retrieved_documents ∧
    (return_best_node s).final_response.isSome = true := by
  unfold return_best_node return_partial_node
  split <;> simp

theorem return_partial_preserves (s : AgentState) :
    (return_partial_node s).strategies_tried = s.strategies_tried ∧
    (return_partial_node s).attempt_count = s.attempt_count ∧
    (return_partial_node s).candidates = s.candidates ∧
    (return_partial_node s).retrieved_documents = s.retrieved_documents ∧
    (return_partial_node s).final_response.isSome = true := by
  unfold return_partial_node
  simp

theorem return_response_preserves (s : AgentState) :
    (return_response_node s).strategies_tried = s.strategies_tried ∧
    (return_response_node s).attempt_count = s.attempt_count ∧
    (return_response_node s).candidates = s.candidates ∧
    (return_response_node s).retrieved_documents = s.retrieved_documents ∧
    (return_response_node s).final_response.isSome = true := by
  unfold return_response_node
  simp

theorem scr_retry_bound (s : AgentState)
    (h1 : should_continue_or_replan s ≠ "satisfied")
    (h2 : should_continue_or_replan s ≠ "all_done") :
    s.attempt_count ≤ 4 ∧ s.strategies_tried.dedup.length ≤ 4 := by
  unfold should_continue_or_replan at h1 h2
  simp only [ALL_TRY_STRATEGIES, List.length_cons, List.length_nil] at h1 h2
  split_ifs at h1 h2 <;> simp_all <;> omega

theorem saa_retry_bound (s : AgentState)
    (h1 : should_accept_answer s ≠ "accept")
    (h2 : should_accept_answer s ≠ "all_done") :
    s.attempt_count ≤ 4 ∧ s.strategies_tried.dedup.length ≤ 4 := by
  unfold should_accept_answer at h1 h2
  simp only [ALL_TRY_STRATEGIES, List.length_cons, List.length_nil] at h1 h2
  split_ifs at h1 h2 <;> simp_all <;> omega

theorem step_done_fix (w : World) (s : AgentState) (i : Nat) :
    step w ⟨.done, s, i⟩ = ⟨.done, s, i⟩ := rfl

theorem iterStep_succ_eq (w : World) (n : Nat) (c : Config) :
    iterStep w (n + 1) c = iterStep w n (step w c) := rfl

theorem iterStep_done (w : World) (n : Nat) (c : Config) (h : c.node = .done) :
    iterStep w n c = c := by
  induction n with
  | zero => rfl
  | succ n ih =>
    obtain ⟨nd, s, i⟩ := c
    simp only at h
    subst h
    rw [iterStep_succ_eq, step_done_fix]
    exact ih

theorem machInv_step (w : World) (c : Config) (h : MachInv c) : MachInv (step w c) := by
  obtain ⟨nd, s, i⟩ := c
  obtain ⟨hc, hf⟩ := h
  cases nd with
  | analyze =>
    simp only [nodeCounts] at hc
    refine ⟨?_, by simp [step]⟩
    simp only [step, nodeCounts, analyze_query_node]
    omega
  | select =>
    simp only [nodeCounts] at hc
    refine ⟨?_, by simp [step]⟩
    simp only [step, nodeCounts, select_strategy_node, List.length_append,
      List.length_cons, List.length_nil]
    omega
  | search =>
    simp only [nodeCounts] at hc
    refine ⟨?_, by simp [step]⟩
    simp only [step, nodeCounts, execute_search_node]
    omega
  | evalResults =>
    simp only [nodeCounts] at hc
    have hLen : (evaluate_results_node s).strategies_tried = s.strategies_tried := rfl
    have hAtt : (evaluate_results_node s).attempt_count = s.attempt_count := rfl
    by_cases h1 : should_continue_or_replan (evaluate_results_node s) = "satisfied"
    · refine ⟨?_, by simp [step, h1]⟩
      simp only [step, h1, if_true, nodeCounts, hLen, hAtt]
      omega
    · by_cases h2 : should_continue_or_replan (evaluate_results_node s) = "all_done"
      · have hstep : step w ⟨Node.evalResults, s, i⟩ =
            ⟨Node.returnBest, evaluate_results_node s, i⟩ := by
          simp [step, h1, h2]
        rw [hstep]
        refine ⟨?_, by simp⟩
        simp only [nodeCounts, hLen, hAtt]
        omega
      · have hb := (scr_retry_bound (evaluate_results_node s) h1 h2).1
        rw [hAtt] at hb
        refine ⟨?_, by simp [step, h1, h2]⟩
        simp only [step, h1, h2, if_false, nodeCounts, hLen, hAtt]
        omega
  | notify =>
    simp only [nodeCounts] at hc
    refine ⟨?_, by simp [step]⟩
    simp only [step, nodeCounts, notify_user_node]
    omega
  | replan =>
    simp only [nodeCounts] at hc
    refine ⟨?_, by simp [step]⟩
    simp only [step, nodeCounts, replan_strategy_node, List.length_append,
      List.length_cons, List.length_nil]
    omega
  | generate =>
    simp only [nodeCounts] at hc
    have hp := generate_answer_preserves s
    refine ⟨?_, by simp [step]⟩
    simp only [step, nodeCounts, hp.1, hp.2.1]
    omega
  | evalAnswer =>
    simp only [nodeCounts] at hc
    have hp := evaluate_answer_preserves w.sqrtF (w.embed i) s
    by_cases h1 : should_accept_answer (evaluate_answer_node w.sqrtF (w.embed i) s) = "accept"
    · refine ⟨?_, by simp [step, h1]⟩
      simp only [step, h1, if_true, nodeCounts, hp.1, hp.2.1]
      omega
    · by_cases h2 : should_accept_answer (evaluate_answer_node w.sqrtF (w.embed i) s) = "all_done"
      · have hstep : step w ⟨Node.evalAnswer, s, i⟩ =
            ⟨Node.returnBest, evaluate_answer_node w.sqrtF (w.embed i) s, i + 1⟩ := by
          simp [step, h1, h2]
        rw [hstep]
        refine ⟨?_, by simp⟩
        simp only [nodeCounts, hp.1, hp.2.1]
        omega
      · have hb := (saa_retry_bound (evaluate_answer_node w.sqrtF (w.embed i) s) h1 h2).1
        rw [hp.2.1] at hb
        refine ⟨?_, by simp [step, h1, h2]⟩
        simp only [step, h1, h2, if_false, nodeCounts, hp.1, hp.2.1]
        omega
  | returnPartial =>
    simp only [nodeCounts] at hc
    have hp := return_partial_preserves s
    refine ⟨?_, fun _ => hp.2.2.2.2⟩
    simp only [step, nodeCounts, hp.1, hp.2.1]
    omega
  | returnResponse =>
    simp only [nodeCounts] at hc
    have hp := return_response_preserves s
    refine ⟨?_, fun _ => hp.2.2.2.2⟩
    simp only [step, nodeCounts, hp.1, hp.2.1]
    omega
  | returnBest =>
    simp only [nodeCounts] at hc
    have hp := return_best_preserves s
    refine ⟨?_, fun _ => hp.2.2.2.2.2⟩
    simp only [step, nodeCounts, hp.1, hp.2.1]
    omega
  | done =>
    exact ⟨hc, hf⟩

theorem machInv_iter (w : World) (n : Nat) (c : Config) (h : MachInv c) :
    MachInv (iterStep w n c) := by
  induction n generalizing c with
  | zero => exact h
  | succ n ih => exact ih (step w c) (machInv_step w c h)

theorem measure_step (w : World) (c : Config) (h : MachInv c) (hn : c.node ≠ .done) :
    measureC (step w c) < measureC c := by
  obtain ⟨nd, s, i⟩ := c
  obtain ⟨hc, _⟩ := h
  cases nd with
  | analyze =>
    simp only [step, measureC, nodeRank, analyze_query_node]
    omega
  | select =>
    simp only [step, measureC, nodeRank, select_strategy_node]
    omega
  | search =>
    simp only [nodeCounts] at hc
    simp only [step, measureC, nodeRank, execute_search_node]
    omega
  | evalResults =>
    have hAtt : (evaluate_results_node s).attempt_count = s.attempt_count := rfl
    by_cases h1 : should_continue_or_replan (evaluate_results_node s) = "satisfied"
    · simp only [step, h1, if_true, measureC, nodeRank, hAtt]
      omega
    · by_cases h2 : should_continue_or_replan (evaluate_results_node s) = "all_done"
      · have hstep : step w ⟨Node.evalResults, s, i⟩ =
            ⟨Node.returnBest, evaluate_results_node s, i⟩ := by
          simp [step, h1, h2]
        rw [hstep]
        simp only [measureC, nodeRank, hAtt]
        omega
      · have hstep : step w ⟨Node.evalResults, s, i⟩ =
            ⟨Node.notify, evaluate_results_node s, i⟩ := by
          simp [step, h1, h2]
        rw [hstep]
        simp only [measureC, nodeRank, hAtt]
        omega
  | notify =>
    simp only [step, measureC, nodeRank, notify_user_node]
    omega
  | replan =>
    simp only [step, measureC, nodeRank, replan_strategy_node]
    omega
  | generate =>
    have hp := generate_answer_preserves s
    simp only [step, measureC, nodeRank, hp.2.1]
    omega
  | evalAnswer =>
    have hp := evaluate_answer_preserves w.sqrtF (w.embed i) s
    by_cases h1 : should_accept_answer (evaluate_answer_node w.sqrtF (w.embed i) s) = "accept"
    · simp only [step, h1, if_true, measureC, nodeRank, hp.2.1]
      omega
    · by_cases h2 : should_accept_answer (evaluate_answer_node w.sqrtF (w.embed i) s) = "all_done"
      · have hstep : step w ⟨Node.evalAnswer, s, i⟩ =
            ⟨Node.returnBest, evaluate_answer_node w.sqrtF (w.embed i) s, i + 1⟩ := by
          simp [step, h1, h2]
        rw [hstep]
        simp only [measureC, nodeRank, hp.2.1]
        omega
      · have hstep : step w ⟨Node.evalAnswer, s, i⟩ =
            ⟨Node.notify, evaluate_answer_node w.sqrtF (w.embed i) s, i + 1⟩ := by
          simp [step, h1, h2]
        rw [hstep]
        simp only [measureC, nodeRank, hp.2.1]
        omega
  | returnPartial =>
    have hp := return_partial_preserves s
    simp only [step, measureC, nodeRank, hp.2.1]
    omega
  | returnResponse =>
    have hp := return_response_preserves s
    simp only [step, measureC, nodeRank, hp.2.1]
    omega
  | returnBest =>
    have hp := return_best_preserves s
    simp only [step, measureC, nodeRank, hp.2.1]
    omega
  | done =>
    exact absurd rfl hn

theorem done_of_measure (w : World) :
    ∀ N c, MachInv c → measureC c ≤ N → (iterStep w N c).node = .done := by
  intro N
  induction N with
  | zero =>
    intro c hI hM
    obtain ⟨nd, s, i⟩ := c
    cases nd <;> first
      | rfl
      | simp [measureC, nodeRank] at hM
  | succ N ih =>
    intro c hI hM
    by_cases hd : c.node = .done
    · rw [iterStep_done w _ c hd]
      exact hd
    · have hlt := measure_step w c hI hd
      rw [iterStep_succ_eq]
      exact ih (step w c) (machInv_step w c hI) (by omega)

theorem machInv_init (q : String) (ovr : Option SearchStrategy) (thr : ℚ) (topk : Nat) :
    MachInv (initConfig q ovr thr topk) := by
  refine ⟨?_, by simp [initConfig]⟩
  simp [initConfig, initState, nodeCounts]

theorem runTerminates (w : World) (q : String) (ovr : Option SearchStrategy)
    (thr : ℚ) (topk : Nat) :
    (iterStep w 44 (initConfig q ovr thr topk)).node = .done := by
  apply done_of_measure w 44 _ (machInv_init q ovr thr topk)
  simp [initConfig, initState, measureC, nodeRank]

theorem counts_bound (c : Config) (h : MachInv c) :
    c.state.strategies_tried.length ≤ 5 ∧ c.state.attempt_count ≤ 5 := by
  obtain ⟨nd, s, i⟩ := c
  obtain ⟨hc, -⟩ := h
  cases nd <;> simp only [nodeCounts] at hc <;> dsimp only <;> omega

theorem select_override_eq (q : String) (it : Option QueryIntent) (ctx : UserContext)
    (st : SearchStrategy) :
    StrategySelector.select q it ctx (some st) =
      (st, "Using override strategy from initial state") := rfl

theorem select_none_mem_five (q : String) (it : Option QueryIntent) (ctx : UserContext) :
    (StrategySelector.select q it ctx none).1 ∈ ALL_TRY_STRATEGIES := by
  unfold StrategySelector.select
  cases it with
  | none =>
    dsimp only
    decide
  | some i =>
    dsimp only
    split_ifs <;> decide

theorem fallback_mem_five (cur : SearchStrategy) :
    _fallback_strategy cur ∈ ALL_TRY_STRATEGIES := by
  cases cur <;> decide

theorem value_mem_fiveValues {st : SearchStrategy} (h : st ∈ ALL_TRY_STRATEGIES) :
    st.value ∈ fiveValues :=
  List.mem_map_of_mem SearchStrategy.value h

theorem fiveOnly_step (w : World) (c : Config) (h5 : FiveOnly c) : FiveOnly (step w c) := by
  obtain ⟨nd, s, i⟩ := c
  obtain ⟨hT, hC⟩ := h5
  cases nd with
  | analyze => exact ⟨hT, hC⟩
  | select =>
    have hmem : (StrategySelector.select s.query s.query_intent s.user_context
        s.current_strategy).1 ∈ ALL_TRY_STRATEGIES := by
      rcases hcur : s.current_strategy with _ | st
      · exact select_none_mem_five s.query s.query_intent s.user_context
      · exact hC st hcur
    constructor
    · intro v hv
      have hv' : v ∈ s.strategies_tried ++
          [(StrategySelector.select s.query s.query_intent s.user_context
            s.current_strategy).1.value] := hv
      rcases List.mem_append.1 hv' with h | h
      · exact hT v h
      · rcases List.mem_singleton.1 h with rfl
        exact value_mem_fiveValues hmem
    · intro st hst
      have hst' : some (StrategySelector.select s.query s.query_intent s.user_context
          s.current_strategy).1 = some st := hst
      rcases Option.some_inj.1 hst' with rfl
      exact hmem
  | search => exact ⟨hT, hC⟩
  | evalResults => exact ⟨hT, hC⟩
  | notify => exact ⟨hT, hC⟩
  | replan =>
    have hmem : (match ALL_TRY_STRATEGIES.find?
        (fun s5 => !s.strategies_tried.contains s5.value) with
        | some s5 => s5
        | none => _fallback_strategy (s.current_strategy.getD .HYBRID_SEARCH)) ∈
        ALL_TRY_STRATEGIES := by
      rcases hfind : ALL_TRY_STRATEGIES.find?
          (fun s5 => !s.strategies_tried.contains s5.value) with _ | s5
      · rw [hfind]
        exact fallback_mem_five (s.current_strategy.getD .HYBRID_SEARCH)
      · rw [hfind]
        exact List.mem_of_find?_eq_some hfind
    constructor
    · intro v hv
      rcases List.mem_append.1 hv with h | h
      · exact hT v h
      · rcases List.mem_singleton.1 h with rfl
        exact value_mem_fiveValues hmem
    · intro st hst
      rcases Option.some_inj.1 hst with rfl
      exact hmem
  | generate =>
    have hp := generate_answer_preserves s
    constructor
    · intro v hv
      rw [show (step w ⟨Node.generate, s, i⟩).state = generate_answer_node s from rfl,
        hp.1] at hv
      exact hT v hv
    · intro st hst
      rw [show (step w ⟨Node.generate, s, i⟩).state = generate_answer_node s from rfl,
        hp.2.2.1] at hst
      exact hC st hst
  | evalAnswer =>
    have hp := evaluate_answer_preserves w.sqrtF (w.embed i) s
    constructor
    · intro v hv
      rw [show (step w ⟨Node.evalAnswer, s, i⟩).state =
        evaluate_answer_node w.sqrtF (w.embed i) s from rfl, hp.1] at hv
      exact hT v hv
    · intro st hst
      rw [show (step w ⟨Node.evalAnswer, s, i⟩).state =
        evaluate_answer_node w.sqrtF (w.embed i) s from rfl, hp.2.2.1] at hst
      exact hC st hst
  | returnPartial => exact ⟨hT, hC⟩
  | returnResponse => exact ⟨hT, hC⟩
  | returnBest =>
    have hp := return_best_preserves s
    constructor
    · intro v hv
      rw [show (step w ⟨Node.returnBest, s, i⟩).state = return_best_node s from rfl,
        hp.1] at hv
      exact hT v hv
    · intro st hst
      rw [show (step w ⟨Node.returnBest, s, i⟩).state = return_best_node s from rfl,
        hp.2.2.1] at hst
      exact hC st hst
  | done => exact ⟨hT, hC⟩

theorem fiveOnly_iter (w : World) (n : Nat) (c : Config) (h : FiveOnly c) :
    FiveOnly (iterStep w n c) := by
  induction n generalizing c with
  | zero => exact h
  | succ n ih => exact ih (step w c) (fiveOnly_step w c h)

theorem emptyRun_step (w : World) (hE : ∀ a st q, w.engine a st q = [])
    (c : Config) (hI : EmptyRun c) : EmptyRun (step w c) := by
  obtain ⟨nd, s, i⟩ := c
  cases nd with
  | analyze =>
    obtain ⟨hCand, hRet, -, -, -, -⟩ := hI
    exact ⟨hCand, hRet, fun hh => Node.noConfusion hh, fun hh => Node.noConfusion hh,
      fun hh => Node.noConfusion hh, fun hh => Node.noConfusion hh⟩
  | select =>
    obtain ⟨hCand, hRet, -, -, -, -⟩ := hI
    exact ⟨hCand, hRet, fun hh => Node.noConfusion hh, fun hh => Node.noConfusion hh,
      fun hh => Node.noConfusion hh, fun hh => Node.noConfusion hh⟩
  | search =>
    obtain ⟨hCand, hRet, -, -, -, -⟩ := hI
    exact ⟨hCand, hE _ _ _, fun hh => Node.noConfusion hh, fun hh => Node.noConfusion hh,
      fun hh => Node.noConfusion hh, fun hh => Node.noConfusion hh⟩
  | evalResults =>
    obtain ⟨hCand, hRet, -, -, -, -⟩ := hI
    have hRet' : s.retrieved_documents = [] := hRet
    have hsat : (evaluate_results_node s).is_satisfied = false := by
      simp [evaluate_results_node, hRet']
    have h1 : should_continue_or_replan (evaluate_results_node s) ≠ "satisfied" := by
      unfold should_continue_or_replan
      rw [hsat]
      split_ifs <;> simp_all
    by_cases h2 : should_continue_or_replan (evaluate_results_node s) = "all_done"
    · have hstep : step w ⟨Node.evalResults, s, i⟩ =
          ⟨Node.returnBest, evaluate_results_node s, i⟩ := by
        simp [step, h1, h2]
      rw [hstep]
      exact ⟨hCand, hRet, fun hh => Node.noConfusion hh, fun hh => Node.noConfusion hh,
        fun hh => Node.noConfusion hh, fun hh => Node.noConfusion hh⟩
    · have hstep : step w ⟨Node.evalResults, s, i⟩ =
          ⟨Node.notify, evaluate_results_node s, i⟩ := by
        simp [step, h1, h2]
      rw [hstep]
      exact ⟨hCand, hRet, fun hh => Node.noConfusion hh, fun hh => Node.noConfusion hh,
        fun hh => Node.noConfusion hh, fun hh => Node.noConfusion hh⟩
  | notify =>
    obtain ⟨hCand, hRet, -, -, -, -⟩ := hI
    exact ⟨hCand, hRet, fun hh => Node.noConfusion hh, fun hh => Node.noConfusion hh,
      fun hh => Node.noConfusion hh, fun hh => Node.noConfusion hh⟩
  | replan =>
    obtain ⟨hCand, hRet, -, -, -, -⟩ := hI
    exact ⟨hCand, hRet, fun hh => Node.noConfusion hh, fun hh => Node.noConfusion hh,
      fun hh => Node.noConfusion hh, fun hh => Node.noConfusion hh⟩
  | generate => exact absurd rfl hI.2.2.1
  | evalAnswer => exact absurd rfl hI.2.2.2.1
  | returnPartial =>
    obtain ⟨hCand, hRet, -, -, -, -⟩ := hI
    exact ⟨hCand, hRet, fun hh => Node.noConfusion hh, fun hh => Node.noConfusion hh,
      fun hh => Node.noConfusion hh, fun _ => ⟨_, rfl, rfl⟩⟩
  | returnResponse => exact absurd rfl hI.2.2.2.2.1
  | returnBest =>
    obtain ⟨hCand, hRet, -, -, -, -⟩ := hI
    have hCand' : s.candidates = [] := hCand
    have hbest : return_best_node s = return_partial_node s := by
      simp [return_best_node, hCand']
    refine ⟨?_, ?_, fun hh => Node.noConfusion hh, fun hh => Node.noConfusion hh,
      fun hh => Node.noConfusion hh, fun _ => ?_⟩
    · show (return_best_node s).candidates = []
      rw [hbest]
      exact hCand
    · show (return_best_node s).retrieved_documents = []
      rw [hbest]
      exact hRet
    · show ∃ r, (return_best_node s).final_response = some r ∧ r.status = "partial"
      rw [hbest]
      exact ⟨_, rfl, rfl⟩
  | done => exact hI

theorem emptyRun_iter (w : World) (hE : ∀ a st q, w.engine a st q = [])
    (n : Nat) (c : Config) (h : EmptyRun c) : EmptyRun (iterStep w n c) := by
  induction n generalizing c with
  | zero => exact h
  | succ n ih => exact ih (step w c) (emptyRun_step w hE c h)

theorem return_best_spec (s : AgentState) (h : s.candidates ≠ []) :
    ∃ b, b ∈ s.candidates ∧
      (return_best_node s).final_response = some (mkBestResponse b s) ∧
      (return_best_node s).answer_confidence = b.confidence ∧
      ∀ cand ∈ s.candidates, candKeyL cand ≤ candKeyL b := by
  have hemp : s.candidates.isEmpty = false := by
    rcases hc : s.candidates with _ | ⟨x, xs⟩
    · exact absurd hc h
    · rfl
  have hperm := List.perm_insertionSort candRel s.candidates
  have hsorted := List.sorted_insertionSort candRel s.candidates
  rcases hsort : List.insertionSort candRel s.candidates with _ | ⟨b, t⟩
  · exfalso
    have hlen := hperm.length_eq
    rw [hsort] at hlen
    exact h (List.length_eq_zero.mp hlen.symm)
  · refine ⟨b, ?_, ?_, ?_, ?_⟩
    · exact hperm.subset (by rw [hsort]; exact List.mem_cons_self b t)
    · simp only [return_best_node, hemp, Bool.false_eq_true, if_false, pySortCandidates,
        hsort, List.headD_cons]
    · simp only [return_best_node, hemp, Bool.false_eq_true, if_false, pySortCandidates,
        hsort, List.headD_cons]
    · intro cand hcand
      have hmem : cand ∈ List.insertionSort candRel s.candidates :=
        (hperm.mem_iff).mpr hcand
      rw [hsort] at hmem hsorted
      rcases List.mem_cons.1 hmem with rfl | hmem
      · exact le_refl _
      · exact List.rel_of_sorted_cons hsorted cand hmem

/-! ## Claims -/

set_option maxRecDepth 4000

/-- C1 counterexample: a session whose search always finds one chunk but
whose embedding service always fails exhausts all five strategies with every
candidate at confidence 0 (so should_accept_answer never returned "accept",
the threshold being 0.8), yet the terminal response has status "ok", not
"partial": return_best_node labels the exhaustion result "ok". -/
theorem C1_counterexample :
    (iterStep wOne 44 (initConfig "q?" none (8/10) 5)).state.final_response.map
      FinalResponse.status = some "ok" ∧
    (iterStep wOne 44 (initConfig "q?" none (8/10) 5)).state.answer_confidence = 0 ∧
    (iterStep wOne 44 (initConfig "q?" none (8/10) 5)).state.confidence_threshold = 8/10 ∧
    (iterStep wOne 44 (initConfig "q?" none (8/10) 5)).state.candidates.map
      Candidate.confidence = [0, 0, 0, 0, 0] := by
  refine ⟨?_, ?_, ?_, ?_⟩ <;> with_unfolding_all decide

/-- C1 amended: status "ok" is produced by return_response_node, which the
machine reaches only when should_accept_answer returned "accept" (confidence
at or above the threshold), and also by return_best_node whenever the
candidates list is non-empty; a terminal path without an accepted answer
yields status "partial" only when no candidate was ever recorded
(return_best_node degrading to return_partial_node, or return_partial_node
itself). -/
theorem C1_amended :
    (∀ s : AgentState, (return_response_node s).final_response.map
      FinalResponse.status = some "ok") ∧
    (∀ s : AgentState, s.candidates ≠ [] →
      (return_best_node s).final_response.map FinalResponse.status = some "ok") ∧
    (∀ s : AgentState, s.candidates = [] →
      (return_best_node s).final_response.map FinalResponse.status = some "partial") ∧
    (∀ s : AgentState, (return_partial_node s).final_response.map
      FinalResponse.status = some "partial") ∧
    (∀ (w : World) (i : Nat) (s : AgentState),
      (step w ⟨Node.evalAnswer, s, i⟩).node = Node.returnResponse →
      should_accept_answer (evaluate_answer_node w.sqrtF (w.embed i) s) = "accept") ∧
    (∀ s : AgentState, should_accept_answer s = "accept" →
      effectiveThreshold s ≤ s.answer_confidence) := by
  refine ⟨fun s => rfl, ?_, ?_, fun s => rfl, ?_, ?_⟩
  · intro s h
    have hemp : s.candidates.isEmpty = false := by
      rcases hc : s.candidates with _ | ⟨x, xs⟩
      · exact absurd hc h
      · rfl
    simp [return_best_node, hemp, mkBestResponse]
  · intro s h
    simp [return_best_node, h, return_partial_node]
  · intro w i s h
    by_cases h1 : should_accept_answer (evaluate_answer_node w.sqrtF (w.embed i) s) = "accept"
    · exact h1
    · exfalso
      by_cases h2 : should_accept_answer (evaluate_answer_node w.sqrtF (w.embed i) s) = "all_done"
      · simp [step, h1, h2] at h
      · simp [step, h1, h2] at h
  · intro s h
    simp only [should_accept_answer] at h
    by_cases hc : effectiveThreshold s ≤ s.answer_confidence
    · exact hc
    · rw [if_neg hc] at h
      split_ifs at h <;> simp_all

/-- C1 amended witness: the gating direction at a concrete accepted state. -/
theorem C1_amended_witness :
    (return_best_node exState).final_response.map FinalResponse.status = some "ok" :=
  C1_amended.2.1 exState (by with_unfolding_all decide)

/-- C2: every session from the initial state terminates (44 machine steps
always reach END); at every step, and so in particular at termination,
len(strategies_tried) is at most 5 and attempt_count is at most 5; and once
all five retry strategies appear in strategies_tried, neither routing
predicate can answer "retry" again, so the retry loop terminates. -/
theorem C2_bounded_attempts (w : World) (q : String) (ovr : Option SearchStrategy)
    (thr : ℚ) (topk : Nat) :
    (iterStep w 44 (initConfig q ovr thr topk)).node = Node.done ∧
    (∀ k, (iterStep w k (initConfig q ovr thr topk)).state.strategies_tried.length ≤ 5 ∧
      (iterStep w k (initConfig q ovr thr topk)).state.attempt_count ≤ 5) ∧
    (∀ s : AgentState, (∀ st ∈ ALL_TRY_STRATEGIES, st.value ∈ s.strategies_tried) →
      should_continue_or_replan s ≠ "retry" ∧ should_accept_answer s ≠ "retry") := by
  refine ⟨runTerminates w q ovr thr topk, ?_, ?_⟩
  · intro k
    exact counts_bound _ (machInv_iter w k _ (machInv_init q ovr thr topk))
  · intro s hall
    have hsub : fiveValues ⊆ s.strategies_tried := by
      intro v hv
      rcases List.mem_map.1 hv with ⟨st, hst, rfl⟩
      exact hall st hst
    have h5 : 5 ≤ s.strategies_tried.dedup.length := by
      have h1 : fiveValues.toFinset ⊆ s.strategies_tried.toFinset := by
        intro v hv
        exact List.mem_toFinset.2 (hsub (List.mem_toFinset.1 hv))
      have h2 : fiveValues.toFinset.card = 5 := by decide
      have h3 := Finset.card_le_card h1
      rw [h2, List.card_toFinset] at h3
      exact h3
    constructor
    · simp only [should_continue_or_replan, ALL_TRY_STRATEGIES, List.length_cons,
        List.length_nil]
      split_ifs <;> simp_all
    · simp only [should_accept_answer, ALL_TRY_STRATEGIES, List.length_cons,
        List.length_nil]
      split_ifs <;> simp_all

/-- C2 witness: a concrete session terminates with the bounds, and the
exhaustion predicate refuses to retry at its terminal state (where all five
strategies have been tried). -/
theorem C2_bounded_attempts_witness :
    (iterStep wEmpty 44 (initConfig "q?" none (8/10) 5)).node = Node.done ∧
    (iterStep wEmpty 44 (initConfig "q?" none (8/10) 5)).state.strategies_tried.length ≤ 5 ∧
    should_continue_or_replan
      (iterStep wEmpty 44 (initConfig "q?" none (8/10) 5)).state ≠ "retry" :=
  ⟨(C2_bounded_attempts wEmpty "q?" none (8/10) 5).1,
   ((C2_bounded_attempts wEmpty "q?" none (8/10) 5).2.1 44).1,
   ((C2_bounded_attempts wEmpty "q?" none (8/10) 5).2.2 _ (by with_unfolding_all decide)).1⟩

/-- C3: when the candidates list is non-empty, return_best_node returns the
response built from a candidate whose (confidence, result_count,
answer_length) key is lexicographically maximal among all candidates, stores
its confidence, and sets attempts = len(strategies_tried); on the concrete
triple (conf 0.3, n 2), (conf 0.7, n 1), (conf 0.7, n 5) it selects the
third. -/
theorem C3_best_of (s : AgentState) (h : s.candidates ≠ []) :
    (∃ b, b ∈ s.candidates ∧
      (return_best_node s).final_response = some (mkBestResponse b s) ∧
      (return_best_node s).answer_confidence = b.confidence ∧
      (mkBestResponse b s).attempts = s.strategies_tried.length ∧
      ∀ cand ∈ s.candidates, candKeyL cand ≤ candKeyL b) ∧
    (return_best_node exState).final_response = some (mkBestResponse exCand3 exState) := by
  constructor
  · obtain ⟨b, h1, h2, h3, h4⟩ := return_best_spec s h
    exact ⟨b, h1, h2, h3, rfl, h4⟩
  · with_unfolding_all decide

/-- C3 witness: the concrete example evaluated through the theorem. -/
theorem C3_best_of_witness :
    ∃ b, b ∈ exState.candidates ∧
      (return_best_node exState).final_response = some (mkBestResponse b exState) := by
  obtain ⟨⟨b, h1, h2, -⟩, -⟩ := C3_best_of exState (by with_unfolding_all decide)
  exact ⟨b, h1, h2⟩

/-- C4 counterexample: an answer-evaluation cycle whose generated answer is
empty (reachable when the satisfied chunk has no QA answers, no summary and
empty content) takes the early-exit branch of evaluate_answer_node and
appends no Candidate, so not every evaluation cycle appends exactly one. -/
theorem C4_counterexample :
    sEmptyAns.generated_answer = some "" ∧
    (evaluate_answer_node (fun x => x) EmbedOutcome.failure sEmptyAns).candidates = [] := by
  constructor
  · rfl
  · with_unfolding_all rfl

/-- C4 amended: evaluate_answer_node appends exactly one Candidate when the
generated answer is non-empty and none when it is empty; no other node
touches the candidates list, so candidates grows only in (non-empty-answer)
answer-evaluation cycles and never on a search-only attempt. -/
theorem C4_amended :
    (∀ (f : ℚ → ℚ) (e : EmbedOutcome) (s : AgentState), s.generated_answer.getD "" ≠ "" →
      ∃ cand, (evaluate_answer_node f e s).candidates = s.candidates ++ [cand]) ∧
    (∀ (f : ℚ → ℚ) (e : EmbedOutcome) (s : AgentState), s.generated_answer.getD "" = "" →
      (evaluate_answer_node f e s).candidates = s.candidates) ∧
    (∀ (it : QueryIntent) (s : AgentState), (analyze_query_node it s).candidates = s.candidates) ∧
    (∀ s : AgentState, (select_strategy_node s).candidates = s.candidates) ∧
    (∀ (eng : SearchStrategy → String → List Chunk) (s : AgentState),
      (execute_search_node eng s).candidates = s.candidates) ∧
    (∀ s : AgentState, (evaluate_results_node s).candidates = s.candidates) ∧
    (∀ s : AgentState, (notify_user_node s).candidates = s.candidates) ∧
    (∀ s : AgentState, (replan_strategy_node s).candidates = s.candidates) ∧
    (∀ s : AgentState, (generate_answer_node s).candidates = s.candidates) := by
  refine ⟨?_, ?_, fun it s => rfl, fun s => rfl, fun eng s => rfl, fun s => rfl,
    fun s => rfl, fun s => rfl, fun s => (generate_answer_preserves s).2.2.2.2.1⟩
  · intro f e s h
    simp only [evaluate_answer_node, if_neg h]
    exact ⟨_, rfl⟩
  · intro f e s h
    simp [evaluate_answer_node, h]

/-- C4 amended witness: a non-empty-answer evaluation appends exactly one
candidate at a concrete state. -/
theorem C4_amended_witness :
    ∃ cand, (evaluate_answer_node (fun x => x) EmbedOutcome.failure
      sNonEmptyAns).candidates = sNonEmptyAns.candidates ++ [cand] :=
  C4_amended.1 (fun x => x) EmbedOutcome.failure sNonEmptyAns (by decide)

/-- C5: for every square-root oracle, embedding outcome and state, the
confidence computed by evaluate_answer_node lies in [0, 1]; an empty
generated answer yields confidence exactly 0 and a result entirely
independent of the embedding service and the square-root oracle (no
embedding calls); and an embedding-service failure yields confidence exactly
0.  The function is total, so no exception escapes the evaluator. -/
theorem C5_confidence_bounds (f : ℚ → ℚ) (e : EmbedOutcome) (s : AgentState) :
    (0 ≤ (evaluate_answer_node f e s).answer_confidence ∧
      (evaluate_answer_node f e s).answer_confidence ≤ 1) ∧
    (s.generated_answer.getD "" = "" →
      (evaluate_answer_node f e s).answer_confidence = 0 ∧
      ∀ (f2 : ℚ → ℚ) (e2 : EmbedOutcome),
        evaluate_answer_node f2 e2 s = evaluate_answer_node f e s) ∧
    (e = EmbedOutcome.failure → (evaluate_answer_node f e s).answer_confidence = 0) := by
  refine ⟨?_, ?_, ?_⟩
  · by_cases h : s.generated_answer.getD "" = ""
    · simp [evaluate_answer_node, h]
    · simp only [evaluate_answer_node, if_neg h]
      constructor
      · exact le_max_left 0 _
      · exact max_le (by norm_num) (min_le_left _ _)
  · intro h
    refine ⟨by simp [evaluate_answer_node, h], ?_⟩
    intro f2 e2
    simp [evaluate_answer_node, h]
  · intro he
    subst he
    by_cases h : s.generated_answer.getD "" = ""
    · simp [evaluate_answer_node, h]
    · simp only [evaluate_answer_node, if_neg h]
      norm_num

/-- C5 witness: the empty-answer case at a concrete state. -/
theorem C5_confidence_bounds_witness :
    (evaluate_answer_node (fun x => x) EmbedOutcome.failure sEmptyAns).answer_confidence
      = 0 :=
  ((C5_confidence_bounds (fun x => x) EmbedOutcome.failure sEmptyAns).2.1 rfl).1

/-- C6: when every retrieval of the session returns zero documents, the
session terminates (within the 44-step bound), the answer path is never
entered, the candidates list stays empty, and the terminal response produced
through return_best_node degrading to return_partial_node has status
"partial". -/
theorem C6_exhausted_empty_partial (w : World) (hE : ∀ a st q, w.engine a st q = [])
    (q : String) (ovr : Option SearchStrategy) (thr : ℚ) (topk : Nat) :
    (iterStep w 44 (initConfig q ovr thr topk)).node = Node.done ∧
    ∃ r, (iterStep w 44 (initConfig q ovr thr topk)).state.final_response = some r ∧
      r.status = "partial" := by
  have hdone := runTerminates w q ovr thr topk
  have hrun := emptyRun_iter w hE 44 (initConfig q ovr thr topk)
    ⟨rfl, rfl, fun hh => Node.noConfusion hh, fun hh => Node.noConfusion hh,
     fun hh => Node.noConfusion hh, fun hh => Node.noConfusion hh⟩
  exact ⟨hdone, hrun.2.2.2.2.2 hdone⟩

/-- C6 witness: the all-empty world, run concretely. -/
theorem C6_exhausted_empty_partial_witness :
    (iterStep wEmpty 44 (initConfig "q" none (8/10) 5)).node = Node.done ∧
    ∃ r, (iterStep wEmpty 44 (initConfig "q" none (8/10) 5)).state.final_response
      = some r ∧ r.status = "partial" :=
  C6_exhausted_empty_partial wEmpty (fun _ _ _ => rfl) "q" none (8/10) 5

/-- C7: for every query, intent and user context, a provided strategy
override is returned verbatim by the Strategy Selector, with a non-empty
reason string, regardless of the intent's content. -/
theorem C7_override_precedence (q : String) (intent : Option QueryIntent)
    (ctx : UserContext) (ov : SearchStrategy) :
    (StrategySelector.select q intent ctx (some ov)).1 = ov ∧
    0 < (StrategySelector.select q intent ctx (some ov)).2.length := by
  refine ⟨rfl, ?_⟩
  show 0 < ("Using override strategy from initial state" : String).length
  decide

/-- C8 counterexample: the SearchStrategy enum is not closed at five members:
_parse_strategy accepts "hybrid_semantic", that member is outside
ALL_TRY_STRATEGIES, and a session started with it as override records it in
strategies_tried. -/
theorem C8_counterexample :
    _parse_strategy (some "hybrid_semantic") = some SearchStrategy.HYBRID_SEMANTIC ∧
    ALL_TRY_STRATEGIES.contains SearchStrategy.HYBRID_SEMANTIC = false ∧
    "hybrid_semantic" ∈ (iterStep wEmpty 2 (initConfig "q?"
      (_parse_strategy (some "hybrid_semantic")) (8/10) 5)).state.strategies_tried := by
  refine ⟨?_, ?_, ?_⟩ <;> with_unfolding_all decide

/-- C8 amended: the enum has thirteen members, of which ALL_TRY_STRATEGIES is
exactly the five of the retry cycle; in a session started without an
override, every value in strategies_tried and every current strategy is one
of those five; a caller override may inject any of the thirteen. -/
theorem C8_amended (w : World) (q : String) (thr : ℚ) (topk : Nat) (k : Nat) :
    ALL_TRY_STRATEGIES = [SearchStrategy.QA_PAIRS, SearchStrategy.HYBRID_SEARCH,
      SearchStrategy.SUMMARY_SEARCH, SearchStrategy.DOCUMENT_SEARCH,
      SearchStrategy.ENTITY_SEARCH] ∧
    (∀ v ∈ (iterStep w k (initConfig q none thr topk)).state.strategies_tried,
      v ∈ fiveValues) ∧
    (∀ st, (iterStep w k (initConfig q none thr topk)).state.current_strategy = some st →
      st ∈ ALL_TRY_STRATEGIES) := by
  have h5 := fiveOnly_iter w k (initConfig q none thr topk)
    ⟨fun v hv => absurd hv (List.not_mem_nil v), fun st hst => Option.noConfusion hst⟩
  exact ⟨rfl, h5.1, h5.2⟩

/-- C8 amended witness: concrete override-free session values are among the
five. -/
theorem C8_amended_witness : "qa_pairs" ∈ fiveValues :=
  (C8_amended wEmpty "q?" (8/10) 5 44).2.1 "qa_pairs" (by with_unfolding_all decide)

/-- C9 counterexample: an invalid strategy-override string is not surfaced:
main_route still chooses the single-query run, _parse_strategy silently
returns None, and the session runs to completion and produces a final
response instead of failing fast. -/
theorem C9_counterexample :
    main_route none none (some "q?") = Except.ok MainAction.runSingle ∧
    _parse_strategy (some "not_a_strategy") = none ∧
    (run_single_model wEmpty "q?" (some "not_a_strategy") (8/10) 5).final_response.isSome
      = true := by
  refine ⟨rfl, by decide, ?_⟩
  with_unfolding_all decide

/-- C9 amended: a missing query (or csv input without csv output) is surfaced
to the caller before any orchestration runs; an invalid strategy-override
string, however, is silently parsed to None and the session starts with no
override, still terminating with a final response. -/
theorem C9_amended :
    (main_route none none none =
      Except.error "Provide --query for single run or --csv-input for batch") ∧
    (∀ ci : String, main_route (some ci) none none =
      Except.error "--csv-output is required when using --csv-input") ∧
    (∀ str : String, strategyOfValue (pyToLower str) = none →
      _parse_strategy (some str) = none) ∧
    (∀ (w : World) (q str : String) (thr : ℚ) (topk : Nat),
      _parse_strategy (some str) = none →
      run_single_model w q (some str) thr topk =
        (iterStep w 44 (initConfig q none thr topk)).state ∧
      (run_single_model w q (some str) thr topk).final_response.isSome = true) := by
  refine ⟨rfl, fun ci => rfl, ?_, ?_⟩
  · intro str h
    unfold _parse_strategy
    by_cases hs : str = ""
    · simp [hs]
    · simp [hs, h]
  · intro w q str thr topk h
    have h1 : run_single_model w q (some str) thr topk =
        (iterStep w 44 (initConfig q none thr topk)).state := by
      simp [run_single_model, h]
    refine ⟨h1, ?_⟩
    rw [h1]
    exact (machInv_iter w 44 _ (machInv_init q none thr topk)).2
      (runTerminates w q none thr topk)

/-- C9 amended witness: the silent-override path at a concrete input. -/
theorem C9_amended_witness :
    _parse_strategy (some "bogus") = none ∧
    (run_single_model wEmpty "q" (some "bogus") (8/10) 5).final_response.isSome = true := by
  have hp : _parse_strategy (some "bogus") = none :=
    C9_amended.2.2.1 "bogus" (by decide)
  exact ⟨hp, (C9_amended.2.2.2 wEmpty "q" "bogus" (8/10) 5 hp).2⟩

/-- C10: in every session from the initial state, whenever the machine is
about to evaluate a routing predicate (nodes evalResults and evalAnswer),
attempt_count equals len(strategies_tried); and the handlers that run just
before the predicates are consulted change neither counter, so the
predicates see the same equality. -/
theorem C10_counters_agree (w : World) (q : String) (ovr : Option SearchStrategy)
    (thr : ℚ) (topk : Nat) (k : Nat) :
    (((iterStep w k (initConfig q ovr thr topk)).node = Node.evalResults ∨
      (iterStep w k (initConfig q ovr thr topk)).node = Node.evalAnswer) →
      (iterStep w k (initConfig q ovr thr topk)).state.attempt_count =
        (iterStep w k (initConfig q ovr thr topk)).state.strategies_tried.length) ∧
    (∀ s : AgentState, (evaluate_results_node s).attempt_count = s.attempt_count ∧
      (evaluate_results_node s).strategies_tried = s.strategies_tried) ∧
    (∀ (f : ℚ → ℚ) (e : EmbedOutcome) (s : AgentState),
      (evaluate_answer_node f e s).attempt_count = s.attempt_count ∧
      (evaluate_answer_node f e s).strategies_tried = s.strategies_tried) ∧
    (∀ s : AgentState, ∃ v,
      (select_strategy_node s).strategies_tried = s.strategies_tried ++ [v]) ∧
    (∀ s : AgentState, ∃ v,
      (replan_strategy_node s).strategies_tried = s.strategies_tried ++ [v]) ∧
    (∀ (eng : SearchStrategy → String → List Chunk) (s : AgentState),
      (execute_search_node eng s).attempt_count = s.attempt_count + 1) := by
  refine ⟨?_, fun s => ⟨rfl, rfl⟩,
    fun f e s => ⟨(evaluate_answer_preserves f e s).2.1, (evaluate_answer_preserves f e s).1⟩,
    fun s => ⟨_, rfl⟩, fun s => ⟨_, rfl⟩, fun eng s => rfl⟩
  intro hor
  obtain ⟨hc, -⟩ := machInv_iter w k (initConfig q ovr thr topk) (machInv_init q ovr thr topk)
  rcases hor with h | h <;> rw [h] at hc <;>
    simp only [nodeCounts] at hc <;> omega

/-- C10 witness: the equality at the first routing point of a concrete
session. -/
theorem C10_counters_agree_witness :
    (iterStep wEmpty 3 (initConfig "q?" none (8/10) 5)).state.attempt_count =
      (iterStep wEmpty 3 (initConfig "q?" none (8/10) 5)).state.strategies_tried.length :=
  (C10_counters_agree wEmpty "q?" none (8/10) 5 3).1 (Or.inl (by with_unfolding_all decide))
